import Mathlib

/-!
Shallow embedding of the real-time facilitation core of the
`beat-your-meet` repository, together with theorems checking its
natural-language specification.

Conventions of the embedding:
* Python floats (timestamps, minutes, confidences) are modelled as exact
  rationals (`ℚ`); the source only compares and adds values far from any
  binary-rounding boundary relevant to the claims.
* Wall-clock reads (`time.time()`) become an explicit `now : ℚ` parameter.
* Mutation of `MeetingState` / `AgendaItem` objects becomes explicit state
  passing: a method that mutates and returns a value is embedded as a
  function returning the value paired with the updated state.
* Fallible computation (a Python statement that can raise) returns `Option`.
-/

/-! ## Agenda state machine (src/agent/monitor.py) -/

/-- The `ItemState` enumeration from `monitor.py`. -/
inductive ItemState where
  | upcoming
  | active
  | warning
  | overtime
  | extended
  | completed
deriving DecidableEq, Repr

/-- The `AgendaItem` dataclass from `monitor.py`. -/
structure AgendaItem where
  id : Nat
  topic : String
  description : String
  duration_minutes : ℚ
  state : ItemState := ItemState.upcoming
  actual_elapsed : ℚ := 0
deriving DecidableEq, Repr

/-- The `MeetingState` dataclass from `monitor.py`.  The transcript buffers,
per-item transcript log and notes list are omitted: no claim under
verification mentions them and no embedded operation reads or writes them. -/
structure MeetingState where
  agenda_title : String
  items : List AgendaItem
  style : String
  current_item_index : Nat := 0
  item_start_time : Option ℚ := none
  meeting_start_time : Option ℚ := none
  meeting_overtime : ℚ := 0
  last_intervention_time : ℚ := 0
  last_override_time : ℚ := 0
  silence_requested_until : ℚ := 0
  override_grace_seconds : ℚ := 120
deriving DecidableEq, Repr

/-- Embeds `INTERVENTION_COOLDOWN = 30` from `monitor.py`. -/
def INTERVENTION_COOLDOWN : ℚ := 30

/-- Embeds `TANGENT_TOLERANCE.get(style, INTERVENTION_COOLDOWN)`: the per-style
tangent tolerance dictionary of `monitor.py` has entries only for
`"gentle"` (60) and `"moderate"` (30); every other style falls back to the
default `INTERVENTION_COOLDOWN`. -/
def tangent_tolerance_get (style : String) : ℚ :=
  if style = "gentle" then 60
  else if style = "moderate" then 30
  else INTERVENTION_COOLDOWN

/-- The `MeetingState.current_item` property: the item at `current_item_index`
when that index is in range. -/
def MeetingState.current_item (s : MeetingState) : Option AgendaItem :=
  s.items[s.current_item_index]?

/-- The `MeetingState.elapsed_minutes` property, with the wall clock explicit. -/
def MeetingState.elapsed_minutes (s : MeetingState) (now : ℚ) : ℚ :=
  match s.item_start_time with
  | none => 0
  | some t => (now - t) / 60

/-- Embeds `MeetingState.is_in_override_grace`, with the wall clock explicit. -/
def MeetingState.is_in_override_grace (s : MeetingState) (now : ℚ) : Bool :=
  if s.last_override_time = 0 then false
  else decide ((now - s.last_override_time) < s.override_grace_seconds)

/-- Helper for embedding in-place mutation of the current agenda item:
replace the item at `current_item_index` by `it`. -/
def MeetingState.set_current (s : MeetingState) (it : AgendaItem) : MeetingState :=
  { s with items := s.items.set s.current_item_index it }

/-- The elapsed/allocated ratio computed inside `check_time_state`:
`elapsed / allocated if allocated > 0 else 1.0`. -/
def MeetingState.pct (s : MeetingState) (now : ℚ) (it : AgendaItem) : ℚ :=
  if it.duration_minutes > 0 then s.elapsed_minutes now / it.duration_minutes else 1

/-- Embeds `MeetingState.check_time_state` from `monitor.py`.  Returns the new state
when a transition occurred (`None` otherwise) paired with the updated
meeting state; the source mutates `item.state` in place exactly in the two
transition branches. -/
def MeetingState.check_time_state (s : MeetingState) (now : ℚ) :
    Option ItemState × MeetingState :=
  match s.current_item with
  | none => (none, s)
  | some item =>
    if item.state = ItemState.completed then (none, s)
    else
      let pct := s.pct now item
      if pct ≥ 1 ∧ item.state ≠ ItemState.overtime ∧ item.state ≠ ItemState.extended then
        (some ItemState.overtime, s.set_current { item with state := ItemState.overtime })
      else if pct ≥ 4/5 ∧ item.state = ItemState.active then
        (some ItemState.warning, s.set_current { item with state := ItemState.warning })
      else (none, s)

/-- Embeds `MeetingState.advance_to_next` from `monitor.py`: finalize the current
item (if any), increment the index unconditionally, then activate and
return the next item (if any), resetting the item start timestamp. -/
def MeetingState.advance_to_next (s : MeetingState) (now : ℚ) :
    Option AgendaItem × MeetingState :=
  let s1 :=
    match s.current_item with
    | some item =>
        let elapsed := s.elapsed_minutes now
        let overrun := max 0 (elapsed - item.duration_minutes)
        { s with
          meeting_overtime := s.meeting_overtime + overrun,
          items := s.items.set s.current_item_index
            { item with actual_elapsed := elapsed, state := ItemState.completed } }
    | none => s
  let s2 := { s1 with current_item_index := s1.current_item_index + 1 }
  match s2.current_item with
  | some nxt =>
      (some { nxt with state := ItemState.active },
       { s2 with
         items := s2.items.set s2.current_item_index { nxt with state := ItemState.active },
         item_start_time := some now })
  | none => (none, s2)

/-- Embeds `MeetingState.can_intervene_for_tangent` from `monitor.py`. -/
def MeetingState.can_intervene_for_tangent (s : MeetingState) (now : ℚ) : Bool :=
  if s.style = "chatting" then false
  else if s.is_in_override_grace now then false
  else decide ((now - s.last_intervention_time) > tangent_tolerance_get s.style)

/-! ## Speech gate (src/agent/speech_gate.py) -/

/-! The `Trigger` string constants of `speech_gate.py`. -/

namespace Trigger

def INTRO : String := "intro"

def TIME_WARNING : String := "time_warning"

def TANGENT : String := "tangent_intervention"

def TRANSITION : String := "transition"

def WRAP_UP : String := "wrap_up"

def DIRECT_QUESTION : String := "direct_question"

end Trigger

/-- The `MeetingContext` dataclass from `speech_gate.py`. -/
structure MeetingContext where
  style : String
  current_topic : String
  current_item_state : String
  elapsed_minutes : ℚ
  allocated_minutes : ℚ
  meeting_overtime : ℚ
  recent_transcript : String
  in_override_grace : Bool
  silence_until : ℚ
  tangent_confidence : ℚ := 0
  items_remaining : Nat := 0
deriving DecidableEq, Repr

/-- The `GateResult` dataclass from `speech_gate.py`. -/
structure GateResult where
  action : String
  text_for_tts : String
  reason : String
  confidence : ℚ
deriving DecidableEq, Repr

/-- Embeds `_TANGENT_THRESHOLD.get(ctx.style, _TANGENT_THRESHOLD["moderate"])`:
the threshold dictionary `{"gentle": 0.80, "moderate": 0.70,
"aggressive": 0.60}` with `"moderate"` as the default for unknown styles. -/
def tangent_threshold_get (style : String) : ℚ :=
  if style = "gentle" then 4/5
  else if style = "moderate" then 7/10
  else if style = "aggressive" then 3/5
  else 7/10

/-- A character stripped by Python's `str.strip()`:
space, tab, newline, carriage return, vertical tab, form feed. -/
def isPyWhitespace (c : Char) : Bool :=
  c = ' ' || c = Char.ofNat 9 || c = Char.ofNat 10 || c = Char.ofNat 13
    || c = Char.ofNat 11 || c = Char.ofNat 12

/-- Python's `str.strip()`: drop leading and trailing whitespace. -/
def py_strip (s : String) : String :=
  String.mk (((s.data.dropWhile isPyWhitespace).reverse.dropWhile isPyWhitespace).reverse)

/-- A `\w` character of Python's `re` module, restricted to the ASCII
fragment exercised by this code base: letters, digits and underscore. -/
def isWordChar (c : Char) : Bool := c.isAlphanum || c = '_'

/-- The apostrophe character (the extra character admitted by the token
pattern of `speech_gate.py`). -/
def apostrophe : Char := Char.ofNat 39

/-- A character matched by the character class of the word pattern
of `speech_gate.py`: a word character or an apostrophe. -/
def isTokenChar (c : Char) : Bool := isWordChar c || c = apostrophe

/-- Trim the characters of one maximal token-character run down to the
segment from its first through its last word character: Python's
word regex (the class run bracketed by word boundaries) matches exactly
that segment of each run, and nothing in a run without word characters. -/
def trimApostrophes (l : List Char) : List Char :=
  ((l.dropWhile (fun c => !isWordChar c)).reverse.dropWhile
    (fun c => !isWordChar c)).reverse

/-- Emit the token of one completed run accumulator (reversed), if any. -/
def emitToken (acc : List Char) : List (List Char) :=
  let t := trimApostrophes acc.reverse
  if t.isEmpty then [] else [t]

/-- Scan character list into the word tokens found by
`re.findall` with the word pattern of `speech_gate.py`: maximal runs of
word characters and apostrophes, each contributing the segment between its
first and last word character. -/
def findTokens : List Char → List Char → List (List Char)
  | [], acc => emitToken acc
  | c :: cs, acc =>
      if isTokenChar c then findTokens cs (c :: acc)
      else emitToken acc ++ findTokens cs []

/-- Embeds `_tokenize_words` from `speech_gate.py`: the set of word tokens of the
lowercased text (`str.lower()` modelled as per-character ASCII lowering). -/
def tokenize_words (text : String) : Finset String :=
  ((findTokens (text.data.map Char.toLower) []).map (fun l => String.mk l)).toFinset

/-- Embeds `_is_redundant` from `speech_gate.py`: true when more than a
`threshold` fraction of the candidate's distinct words appear in the
transcript. -/
def is_redundant (candidate recent_transcript : String) (threshold : ℚ) : Bool :=
  if recent_transcript = "" ∨ candidate = "" then false
  else
    let candidate_words := tokenize_words candidate
    let transcript_words := tokenize_words recent_transcript
    if candidate_words = ∅ then false
    else
      decide
        (((candidate_words ∩ transcript_words).card : ℚ) / (candidate_words.card : ℚ)
          > threshold)

/-- Renders a rational for an interpolated log/reason string.  Stands in
for the two-decimal float formatting of the source; no claim depends on
the reason text. -/
def fmt2 (q : ℚ) : String := toString q.num ++ "/" ++ toString q.den

/-- Embeds `_emit` from `speech_gate.py`: builds the `GateResult`, blanking the
text when not speaking and clamping the confidence into [0, 1].  The
`trigger` argument is only logged in the source. -/
def emit (trigger action text_for_tts reason : String) (confidence : ℚ) : GateResult :=
  let _ := trigger
  { action := action,
    text_for_tts := if action = "speak" then text_for_tts else "",
    reason := reason,
    confidence := max 0 (min 1 confidence) }

/-- The silence-window predicate computed inside `evaluate`:
`ctx.silence_until > 0 and time.time() < ctx.silence_until`, with the wall
clock explicit. -/
def silence_active_flag (ctx : MeetingContext) (now : ℚ) : Bool :=
  decide (ctx.silence_until > 0 ∧ now < ctx.silence_until)

/-- The per-trigger rules of `evaluate` (the part of the source function
below the empty / silence-window / redundancy early returns). -/
def per_trigger_rule (candidate trigger : String) (ctx : MeetingContext) : GateResult :=
  if trigger = Trigger.INTRO then
    emit trigger "speak" candidate "intro should always be delivered" 1
  else if trigger = Trigger.WRAP_UP then
    emit trigger "speak" candidate "wrap-up should always be delivered" 1
  else if trigger = Trigger.TRANSITION then
    if ctx.meeting_overtime ≥ 5 then
      emit trigger "speak" candidate
        "transition forced due to significant meeting overtime" (98/100)
    else if ctx.in_override_grace then
      emit trigger "silent" "" "host override grace active; transition deferred" (92/100)
    else
      emit trigger "speak" candidate "transition allowed" (95/100)
  else if trigger = Trigger.TIME_WARNING then
    if ctx.in_override_grace then
      emit trigger "silent" "" "host override grace active; suppressing time warning"
        (95/100)
    else
      emit trigger "speak" candidate "time warning at 80%" (95/100)
  else if trigger = Trigger.TANGENT then
    let threshold := tangent_threshold_get ctx.style
    if ctx.in_override_grace then
      emit trigger "silent" ""
        "host override grace active; suppressing tangent intervention" (95/100)
    else if ctx.tangent_confidence ≥ threshold then
      emit trigger "speak" candidate
        ("tangent confidence " ++ fmt2 ctx.tangent_confidence
          ++ " >= style threshold " ++ fmt2 threshold)
        ctx.tangent_confidence
    else
      emit trigger "silent" ""
        ("tangent confidence " ++ fmt2 ctx.tangent_confidence
          ++ " below style threshold " ++ fmt2 threshold)
        (1 - min 1 ctx.tangent_confidence)
  else if trigger = Trigger.DIRECT_QUESTION then
    emit trigger "speak" candidate "direct question should always be answered" 1
  else
    emit trigger "silent" "" ("no rule allows trigger " ++ trigger) (3/4)

/-- Embeds `evaluate` from `speech_gate.py`, with the wall clock explicit: the
three early suppression returns (empty candidate, active silence window
outside the bypass set, redundancy) followed by the per-trigger rules. -/
def evaluate (candidate_text trigger : String) (ctx : MeetingContext) (now : ℚ) :
    GateResult :=
  let candidate := py_strip candidate_text
  if candidate = "" then
    emit trigger "silent" "" "empty candidate text" 1
  else if silence_active_flag ctx now
      ∧ trigger ≠ Trigger.TRANSITION ∧ trigger ≠ Trigger.WRAP_UP then
    emit trigger "silent" "" "silence requested by participant" (98/100)
  else if is_redundant candidate ctx.recent_transcript (1/2) then
    emit trigger "silent" "" "candidate speech is redundant with recent transcript" (9/10)
  else
    per_trigger_rule candidate trigger ctx

/-! ## Multi-source audio mixer (src/agent/multi_audio.py)

A frame's PCM payload is modelled as its decoded list of signed 16-bit
samples (`List Int`); the byte-level decoding of the source is elided.
Python's `array.array("h")` rejects any assignment of a value outside the
signed 16-bit range by raising `OverflowError`; the embedding models a
store into such an array as an `Option`-valued operation. -/

def SAMPLE_RATE : Nat := 24000

def NUM_CHANNELS : Nat := 1

def FRAME_DURATION_MS : Nat := 50

def SAMPLES_PER_FRAME : Nat := SAMPLE_RATE * FRAME_DURATION_MS / 1000

/-- Storing `v` into an element of an `array.array("h")`: succeeds exactly
when `v` fits in a signed 16-bit integer, otherwise raises (`none`). -/
def int16_store (v : Int) : Option Int :=
  if -32768 ≤ v ∧ v ≤ 32767 then some v else none

/-- The inner accumulation loop of `_mix_frames`:
`for i in range(count): mixed[i] += samples[i]` with
`count = min(len(samples), len(mixed))`, each store subject to the int16
range check of the array type. -/
def add_into : List Int → List Int → Option (List Int)
  | acc, [] => some acc
  | [], _ :: _ => some []
  | a :: as_, b :: bs =>
      (int16_store (a + b)).bind fun v => (add_into as_ bs).map fun rest => v :: rest

/-- The clamp loop of `_mix_frames` (note: on values that survived the
int16 stores it is the identity). -/
def clamp16 (v : Int) : Int :=
  if v > 32767 then 32767 else if v < -32768 then -32768 else v

/-- The all-zero frame produced by `_silence_frame`. -/
def silence_frame (n : Nat) : List Int := List.replicate n 0

/-- Embeds `_mix_frames` from `multi_audio.py`, applied to the frames snapshotted
from the participant slots this tick; `n` is
`samples_per_frame * num_channels`.  Returns `none` when the Python code
raises. -/
def mix_frames (frames : List (List Int)) (n : Nat) : Option (List Int) :=
  match frames with
  | [] => some (silence_frame n)
  | [f] => some f
  | _ =>
      (frames.foldlM (fun acc f => add_into acc (f.take n)) (List.replicate n 0)).map
        fun mixed => mixed.map clamp16

/-- The saturating mix described by the specification (`Modelled from the
spec`, for comparison only): sum corresponding samples as unbounded signed
integers and clip each sum into the signed 16-bit range. -/
def saturating_mix (frames : List (List Int)) (n : Nat) : List Int :=
  (List.range n).map fun i =>
    clamp16 (frames.foldl (fun acc f => acc + (f[i]?.getD 0)) 0)

/-- A full frame in which every sample holds the constant 20000: two
sources contributing it sum to 40000, beyond the 16-bit maximum. -/
def clipping_frame : List Int :=
  List.replicate (SAMPLES_PER_FRAME * NUM_CHANNELS) 20000

/-- A plain meeting context used as the base of concrete test inputs. -/
def baseCtx : MeetingContext :=
  { style := "moderate"
    current_topic := "roadmap"
    current_item_state := "active"
    elapsed_minutes := 0
    allocated_minutes := 10
    meeting_overtime := 0
    recent_transcript := ""
    in_override_grace := false
    silence_until := 0 }

/-- A 10-minute agenda item, active since meeting start. -/
def item1 : AgendaItem :=
  { id := 1, topic := "kickoff", description := "", duration_minutes := 10,
    state := ItemState.active }

/-- A 5-minute upcoming agenda item. -/
def item2 : AgendaItem :=
  { id := 2, topic := "budget", description := "", duration_minutes := 5 }

/-- A meeting holding only `item1`, started at timestamp 0. -/
def oneItemMeeting : MeetingState :=
  { agenda_title := "weekly", items := [item1], style := "moderate",
    item_start_time := some 0, meeting_start_time := some 0 }

/-- A meeting holding `item1` then `item2`, started at timestamp 0. -/
def twoItemMeeting : MeetingState :=
  { agenda_title := "weekly", items := [item1, item2], style := "moderate",
    item_start_time := some 0, meeting_start_time := some 0 }

/-- A meeting with an empty agenda (no current item). -/
def emptyMeeting : MeetingState :=
  { agenda_title := "empty", items := [], style := "moderate" }

/-- A meeting in the gentle facilitation style, no intervention yet. -/
def gentleMeeting : MeetingState :=
  { agenda_title := "g", items := [], style := "gentle" }

/-- A meeting in the aggressive facilitation style, no intervention yet. -/
def aggressiveMeeting : MeetingState :=
  { agenda_title := "a", items := [], style := "aggressive" }

/-! ## Theorems -/

/-- When the empty / silence / redundancy gates all pass, `evaluate`
reaches the per-trigger rules. -/
lemma evaluate_passes_gates (text trigger : String) (ctx : MeetingContext) (now : ℚ)
    (hne : py_strip text ≠ "")
    (hsil : ¬(silence_active_flag ctx now = true
        ∧ trigger ≠ Trigger.TRANSITION ∧ trigger ≠ Trigger.WRAP_UP))
    (hred : is_redundant (py_strip text) ctx.recent_transcript (1/2) = false) :
    evaluate text trigger ctx now = per_trigger_rule (py_strip text) trigger ctx := by
  simp only [evaluate]
  rw [if_neg hne, if_neg hsil, if_neg (fun h => Bool.false_ne_true (hred ▸ h))]

/-- Adding a frame of in-range constants into the zeroed accumulator
succeeds and yields that frame. -/
lemma add_into_replicate_zero (c : Int) (h1 : -32768 ≤ c) (h2 : c ≤ 32767) :
    ∀ k, add_into (List.replicate k 0) (List.replicate k c) = some (List.replicate k c) := by
  intro k
  induction k with
  | zero => rfl
  | succ m ih =>
      simp [List.replicate_succ, add_into, int16_store, h1, h2, ih]

/-- A store whose first sum overflows the 16-bit range fails immediately. -/
lemma add_into_head_overflow (a b : Int) (t u : List Int) (h : 32767 < a + b) :
    add_into (a :: t) (b :: u) = none := by
  rw [add_into, int16_store, if_neg (by omega : ¬(-32768 ≤ a + b ∧ a + b ≤ 32767))]
  rfl

/-- Unfolds `mix_frames` on a two-frame list, written out as the two accumulation
passes followed by the clamp pass. -/
lemma mix_frames_pair (A B : List Int) (n : Nat) :
    mix_frames [A, B] n =
      ((add_into (List.replicate n 0) (A.take n)).bind fun acc =>
        (add_into acc (B.take n)).bind pure).map (List.map clamp16) := rfl

/-- Mixing two identical constant frames whose per-sample sum exceeds the
16-bit maximum fails (the int16 store raises before the clamp loop runs). -/
lemma mix_overflow_general (n : Nat) (c : Int) (h1 : -32768 ≤ c) (h2 : c ≤ 32767)
    (h3 : 32767 < c + c) (hn : n ≠ 0) :
    mix_frames [List.replicate n c, List.replicate n c] n = none := by
  obtain ⟨m, rfl⟩ : ∃ m, n = m + 1 :=
    ⟨n - 1, (Nat.succ_pred_eq_of_pos (Nat.pos_of_ne_zero hn)).symm⟩
  rw [mix_frames_pair, List.take_replicate, min_self,
    add_into_replicate_zero c h1 h2, Option.some_bind, List.replicate_succ,
    add_into_head_overflow c c _ _ h3, Option.none_bind]
  rfl

/-- What the specification expects of the same tick: every sample of the
saturating mix of the two frames is clipped exactly at 32767. -/
lemma saturating_mix_clipping :
    saturating_mix [clipping_frame, clipping_frame] (SAMPLES_PER_FRAME * NUM_CHANNELS)
      = List.replicate (SAMPLES_PER_FRAME * NUM_CHANNELS) 32767 := by
  rw [List.eq_replicate_iff]
  constructor
  · simp [saturating_mix]
  · intro b hb
    simp only [saturating_mix, List.mem_map, List.mem_range] at hb
    obtain ⟨i, hi, rfl⟩ := hb
    simp [clipping_frame, List.getElem?_replicate, hi, clamp16]

/-- C1: on a mix tick with two attached sources whose frames each carry the
constant sample 20000 (sum 40000 > 32767), the claim says every emitted
sample is saturated to 32767 and the mix never fails; the code instead
fails: the in-place `+=` into the int16 array raises before the clamp loop
is reached, so no frame is emitted, while the specified saturating mix of
the very same input is the all-32767 frame. -/
theorem mix_frames_fails_where_claim_says_clip :
    mix_frames [clipping_frame, clipping_frame] (SAMPLES_PER_FRAME * NUM_CHANNELS) = none
    ∧ saturating_mix [clipping_frame, clipping_frame] (SAMPLES_PER_FRAME * NUM_CHANNELS)
        = List.replicate (SAMPLES_PER_FRAME * NUM_CHANNELS) 32767 := by
  refine ⟨?_, saturating_mix_clipping⟩
  exact mix_overflow_general _ 20000 (by norm_num) (by norm_num) (by norm_num)
    (by norm_num [SAMPLES_PER_FRAME, SAMPLE_RATE, FRAME_DURATION_MS, NUM_CHANNELS])

/-- Every result `emit` builds has clamped confidence, the action it was
given, and empty text when not speaking. -/
lemma emit_invariants (trigger action text reason : String) (conf : ℚ)
    (h : action = "speak" ∨ action = "silent") :
    ((emit trigger action text reason conf).action = "speak"
        ∨ (emit trigger action text reason conf).action = "silent")
    ∧ 0 ≤ (emit trigger action text reason conf).confidence
    ∧ (emit trigger action text reason conf).confidence ≤ 1
    ∧ ((emit trigger action text reason conf).action = "silent"
        → (emit trigger action text reason conf).text_for_tts = "") := by
  refine ⟨h, le_max_left 0 _, max_le (by norm_num) (min_le_left 1 conf), ?_⟩
  intro hs
  simp only [emit] at hs ⊢
  rw [if_neg]
  rw [hs]
  decide

/-- Every branch of the per-trigger rules returns through `_emit`, with a
literal "speak" or "silent" action. -/
lemma per_trigger_rule_is_emit (candidate trigger : String) (ctx : MeetingContext) :
    ∃ a t r c, per_trigger_rule candidate trigger ctx = emit trigger a t r c
      ∧ (a = "speak" ∨ a = "silent") := by
  simp only [per_trigger_rule]
  split_ifs <;>
    exact ⟨_, _, _, _, rfl, by first | exact Or.inl rfl | exact Or.inr rfl⟩

/-- Every branch of `evaluate` returns through `_emit`, with a literal
"speak" or "silent" action. -/
lemma evaluate_is_emit (text trigger : String) (ctx : MeetingContext) (now : ℚ) :
    ∃ a t r c, evaluate text trigger ctx now = emit trigger a t r c
      ∧ (a = "speak" ∨ a = "silent") := by
  simp only [evaluate]
  split_ifs
  · exact ⟨_, _, _, _, rfl, Or.inr rfl⟩
  · exact ⟨_, _, _, _, rfl, Or.inr rfl⟩
  · exact ⟨_, _, _, _, rfl, Or.inr rfl⟩
  · exact per_trigger_rule_is_emit (py_strip text) trigger ctx

/-- C10: every `GateResult` returned by `evaluate` — for every candidate
text, trigger, context and clock reading — has confidence in [0, 1], an
action that is either "speak" or "silent", and empty `text_for_tts`
whenever the action is "silent". -/
theorem evaluate_result_invariants (text trigger : String) (ctx : MeetingContext) (now : ℚ) :
    ((evaluate text trigger ctx now).action = "speak"
        ∨ (evaluate text trigger ctx now).action = "silent")
    ∧ 0 ≤ (evaluate text trigger ctx now).confidence
    ∧ (evaluate text trigger ctx now).confidence ≤ 1
    ∧ ((evaluate text trigger ctx now).action = "silent"
        → (evaluate text trigger ctx now).text_for_tts = "") := by
  obtain ⟨a, t, r, c, heq, ha⟩ := evaluate_is_emit text trigger ctx now
  rw [heq]
  exact emit_invariants trigger a t r c ha

/-- C8: for every trigger — including intro, direct_question and the
bypass-set triggers transition and wrap_up — if the recent transcript is
non-empty and strictly more than half of the distinct words of the
non-empty candidate already appear in it, `evaluate` returns silent. -/
theorem evaluate_redundancy_spec (text trigger : String) (ctx : MeetingContext) (now : ℚ)
    (htr : ctx.recent_transcript ≠ "")
    (hne : py_strip text ≠ "")
    (hover : 2 * ((tokenize_words (py_strip text)) ∩ (tokenize_words ctx.recent_transcript)).card
        > (tokenize_words (py_strip text)).card) :
    (evaluate text trigger ctx now).action = "silent" := by
  have hcw : tokenize_words (py_strip text) ≠ ∅ := by
    intro h
    rw [h] at hover
    simp at hover
  have hpos : (0 : ℚ) < ((tokenize_words (py_strip text)).card : ℚ) := by
    have := Finset.card_pos.mpr (Finset.nonempty_iff_ne_empty.mpr hcw)
    exact_mod_cast this
  have hover' : ((tokenize_words (py_strip text)).card : ℚ)
      < 2 * (((tokenize_words (py_strip text)) ∩ (tokenize_words ctx.recent_transcript)).card : ℚ) := by
    exact_mod_cast hover
  have hred : is_redundant (py_strip text) ctx.recent_transcript (1/2) = true := by
    unfold is_redundant
    rw [if_neg (by simp [htr, hne]), if_neg hcw, decide_eq_true_eq, gt_iff_lt,
      lt_div_iff₀ hpos]
    linarith
  simp only [evaluate]
  by_cases hemp : py_strip text = ""
  · exact absurd hemp hne
  rw [if_neg hemp]
  by_cases hs : silence_active_flag ctx now = true
      ∧ trigger ≠ Trigger.TRANSITION ∧ trigger ≠ Trigger.WRAP_UP
  · rw [if_pos hs]
    rfl
  · rw [if_neg hs, if_pos hred]
    rfl

/-- C8 witness: a candidate whose two words both occur in the 60-second
transcript window is suppressed even for the bypass trigger transition. -/
theorem evaluate_redundancy_spec_witness :
    ({ baseCtx with recent_transcript := "alice: hello there world" }
        : MeetingContext).recent_transcript ≠ ""
    ∧ py_strip "hello world" ≠ ""
    ∧ 2 * ((tokenize_words (py_strip "hello world"))
          ∩ (tokenize_words "alice: hello there world")).card
        > (tokenize_words (py_strip "hello world")).card
    ∧ (evaluate "hello world" Trigger.TRANSITION
        { baseCtx with recent_transcript := "alice: hello there world" } 0).action
        = "silent" :=
  ⟨by decide, by decide, by decide,
    evaluate_redundancy_spec "hello world" Trigger.TRANSITION
      { baseCtx with recent_transcript := "alice: hello there world" } 0
      (by decide) (by decide) (by decide)⟩

/-- C7: while a silence window is active, every trigger outside the bypass
set {transition, wrap_up} is silenced; transition and wrap_up are not
suppressed by the silence rule, and absent the other suppression rules
(non-empty, non-redundant candidate; for transition, no override grace)
both speak. -/
theorem evaluate_silence_window_spec (text trigger : String) (ctx : MeetingContext) (now : ℚ)
    (hsil : ctx.silence_until > 0 ∧ now < ctx.silence_until) :
    (trigger ≠ Trigger.TRANSITION → trigger ≠ Trigger.WRAP_UP →
        (evaluate text trigger ctx now).action = "silent")
    ∧ (py_strip text ≠ "" → is_redundant (py_strip text) ctx.recent_transcript (1/2) = false →
        ctx.in_override_grace = false →
        (evaluate text Trigger.TRANSITION ctx now).action = "speak")
    ∧ (py_strip text ≠ "" → is_redundant (py_strip text) ctx.recent_transcript (1/2) = false →
        (evaluate text Trigger.WRAP_UP ctx now).action = "speak") := by
  have hflag : silence_active_flag ctx now = true := decide_eq_true hsil
  refine ⟨?_, ?_, ?_⟩
  · intro h1 h2
    simp only [evaluate]
    by_cases hemp : py_strip text = ""
    · rw [if_pos hemp]
      rfl
    · rw [if_neg hemp, if_pos ⟨hflag, h1, h2⟩]
      rfl
  · intro hne hred hg
    rw [evaluate_passes_gates text Trigger.TRANSITION ctx now hne
      (fun h => h.2.1 rfl) hred]
    simp +decide only [per_trigger_rule, if_true, if_false]
    by_cases hov : ctx.meeting_overtime ≥ 5
    · rw [if_pos hov]
      rfl
    · rw [if_neg hov, if_neg (fun h => Bool.false_ne_true (hg ▸ h))]
      rfl
  · intro hne hred
    rw [evaluate_passes_gates text Trigger.WRAP_UP ctx now hne
      (fun h => h.2.2 rfl) hred]
    simp +decide only [per_trigger_rule, if_true, if_false]
    rfl

/-- C7 witness: with a silence window active until timestamp 100 and the
clock at 50, a time warning stays silent while a transition speaks. -/
theorem evaluate_silence_window_spec_witness :
    (evaluate "hello" Trigger.TIME_WARNING { baseCtx with silence_until := 100 } 50).action
        = "silent"
    ∧ (evaluate "hello" Trigger.TRANSITION { baseCtx with silence_until := 100 } 50).action
        = "speak" := by
  have h := evaluate_silence_window_spec "hello" Trigger.TIME_WARNING
    { baseCtx with silence_until := 100 } 50 (by decide)
  exact ⟨h.1 (by decide) (by decide), h.2.1 (by decide) (by decide) rfl⟩

/-- C6: for the transition trigger with a non-empty non-redundant
candidate, `evaluate` speaks whenever cumulative overtime is at least
5 minutes (even during override grace); below 5 minutes it is silent
exactly when the override grace window is active. -/
theorem evaluate_transition_spec (text : String) (ctx : MeetingContext) (now : ℚ)
    (hne : py_strip text ≠ "")
    (hred : is_redundant (py_strip text) ctx.recent_transcript (1/2) = false) :
    (ctx.meeting_overtime ≥ 5 →
        (evaluate text Trigger.TRANSITION ctx now).action = "speak")
    ∧ (ctx.meeting_overtime < 5 → ctx.in_override_grace = true →
        (evaluate text Trigger.TRANSITION ctx now).action = "silent")
    ∧ (ctx.meeting_overtime < 5 → ctx.in_override_grace = false →
        (evaluate text Trigger.TRANSITION ctx now).action = "speak") := by
  rw [evaluate_passes_gates text Trigger.TRANSITION ctx now hne
    (fun h => h.2.1 rfl) hred]
  simp +decide only [per_trigger_rule, if_true, if_false]
  refine ⟨?_, ?_, ?_⟩
  · intro hov
    rw [if_pos hov]
    rfl
  · intro hov hg
    rw [if_neg (not_le.mpr hov), if_pos hg]
    rfl
  · intro hov hg
    rw [if_neg (not_le.mpr hov), if_neg (fun h => Bool.false_ne_true (hg ▸ h))]
    rfl

/-- C6 witness: at 6 minutes of cumulative overtime a transition speaks
even though the override grace window is active; at 0 minutes of overtime
the same grace window silences it. -/
theorem evaluate_transition_spec_witness :
    (evaluate "hello" Trigger.TRANSITION
        { baseCtx with meeting_overtime := 6, in_override_grace := true } 0).action
        = "speak"
    ∧ (evaluate "hello" Trigger.TRANSITION
        { baseCtx with in_override_grace := true } 0).action = "silent" :=
  ⟨(evaluate_transition_spec "hello"
      { baseCtx with meeting_overtime := 6, in_override_grace := true } 0
      (by decide) (by decide)).1 (by decide),
   (evaluate_transition_spec "hello"
      { baseCtx with in_override_grace := true } 0
      (by decide) (by decide)).2.1 (by decide) rfl⟩

/-- C5: for the tangent trigger with a non-empty, non-redundant candidate
and no active silence window: override grace forces silent; otherwise the
gate speaks exactly when the supplied confidence meets the style
threshold (gentle 0.80, aggressive 0.60), returning the input confidence
when speaking and its complement when suppressed. -/
theorem evaluate_tangent_spec (text : String) (ctx : MeetingContext) (now : ℚ)
    (hne : py_strip text ≠ "")
    (hred : is_redundant (py_strip text) ctx.recent_transcript (1/2) = false)
    (hsil : ¬(ctx.silence_until > 0 ∧ now < ctx.silence_until))
    (hc0 : 0 ≤ ctx.tangent_confidence) (hc1 : ctx.tangent_confidence ≤ 1) :
    (ctx.in_override_grace = true →
        (evaluate text Trigger.TANGENT ctx now).action = "silent")
    ∧ (ctx.in_override_grace = false →
        (((evaluate text Trigger.TANGENT ctx now).action = "speak"
            ↔ ctx.tangent_confidence ≥ tangent_threshold_get ctx.style)
        ∧ (ctx.tangent_confidence ≥ tangent_threshold_get ctx.style →
            (evaluate text Trigger.TANGENT ctx now).confidence = ctx.tangent_confidence)
        ∧ (ctx.tangent_confidence < tangent_threshold_get ctx.style →
            (evaluate text Trigger.TANGENT ctx now).action = "silent"
            ∧ (evaluate text Trigger.TANGENT ctx now).confidence
                = 1 - ctx.tangent_confidence)))
    ∧ tangent_threshold_get "gentle" = 4/5
    ∧ tangent_threshold_get "aggressive" = 3/5 := by
  have hflag : silence_active_flag ctx now = false := decide_eq_false hsil
  rw [evaluate_passes_gates text Trigger.TANGENT ctx now hne
    (fun h => Bool.false_ne_true (hflag ▸ h.1)) hred]
  simp +decide only [per_trigger_rule, if_true, if_false]
  refine ⟨?_, ?_, by simp [tangent_threshold_get], by simp [tangent_threshold_get]⟩
  · intro hg
    rw [if_pos hg]
    rfl
  · intro hg
    rw [if_neg (show ¬(ctx.in_override_grace = true) from
      fun h => Bool.false_ne_true (hg ▸ h))]
    refine ⟨?_, ?_, ?_⟩
    · by_cases hge : ctx.tangent_confidence ≥ tangent_threshold_get ctx.style
      · rw [if_pos hge]
        exact ⟨fun _ => hge, fun _ => rfl⟩
      · rw [if_neg hge]
        exact ⟨fun hact => absurd hact (show ¬(("silent" : String) = "speak") by decide),
          fun hge' => absurd hge' hge⟩
    · intro hge
      rw [if_pos hge]
      show max 0 (min 1 ctx.tangent_confidence) = ctx.tangent_confidence
      rw [min_eq_right hc1, max_eq_right hc0]
    · intro hlt
      rw [if_neg (not_le.mpr hlt)]
      refine ⟨rfl, ?_⟩
      show max 0 (min 1 (1 - min 1 ctx.tangent_confidence)) = 1 - ctx.tangent_confidence
      rw [min_eq_right hc1, min_eq_right (by linarith), max_eq_right (by linarith)]

/-- C5 witness: with style gentle (threshold 0.80), confidence 0.81 speaks
with confidence 0.81 and confidence 0.79 is suppressed with the
complementary confidence. -/
theorem evaluate_tangent_spec_witness :
    (evaluate "hello" Trigger.TANGENT
        { baseCtx with style := "gentle", tangent_confidence := 81/100 } 0).action = "speak"
    ∧ (evaluate "hello" Trigger.TANGENT
        { baseCtx with style := "gentle", tangent_confidence := 81/100 } 0).confidence
        = 81/100
    ∧ (evaluate "hello" Trigger.TANGENT
        { baseCtx with style := "gentle", tangent_confidence := 79/100 } 0).action = "silent"
    ∧ (evaluate "hello" Trigger.TANGENT
        { baseCtx with style := "gentle", tangent_confidence := 79/100 } 0).confidence
        = 1 - 79/100 := by
  have h81 := evaluate_tangent_spec "hello"
    { baseCtx with style := "gentle", tangent_confidence := 81/100 } 0
    (by decide) (by decide) (by decide) (by norm_num [baseCtx]) (by norm_num [baseCtx])
  have h79 := evaluate_tangent_spec "hello"
    { baseCtx with style := "gentle", tangent_confidence := 79/100 } 0
    (by decide) (by decide) (by decide) (by norm_num [baseCtx]) (by norm_num [baseCtx])
  exact ⟨(h81.2.1 rfl).1.mpr (by norm_num [baseCtx, tangent_threshold_get]),
    (h81.2.1 rfl).2.1 (by norm_num [baseCtx, tangent_threshold_get]),
    ((h79.2.1 rfl).2.2 (by norm_num [baseCtx, tangent_threshold_get])).1,
    ((h79.2.1 rfl).2.2 (by norm_num [baseCtx, tangent_threshold_get])).2⟩

/-- A `current_item` hit exposes the index bound. -/
lemma current_item_index_lt (s : MeetingState) (it : AgendaItem)
    (h : s.current_item = some it) : s.current_item_index < s.items.length :=
  (List.getElem?_eq_some.mp h).1

/-- Replacing the current item keeps it the current item. -/
lemma current_item_set_current (s : MeetingState) (it v : AgendaItem)
    (h : s.current_item = some it) :
    (s.set_current v).current_item = some v := by
  show (s.items.set s.current_item_index v)[s.current_item_index]? = some v
  exact List.getElem?_set_self (current_item_index_lt s it h)

/-- C2: `check_time_state` transitions ACTIVE to WARNING at elapsed/allocated
at least 0.8 (and below 1.0), transitions any state other than OVERTIME,
EXTENDED and COMPLETED to OVERTIME at ratio at least 1.0, treats a
non-positive allocation as ratio 1.0, returns the new state exactly when a
transition occurred (in particular a repeated call at the same elapsed time
returns nothing), and returns nothing when there is no current item or the
current item is COMPLETED. -/
theorem check_time_state_spec (s : MeetingState) (now : ℚ) :
    (s.current_item = none → s.check_time_state now = (none, s))
    ∧ (∀ it, s.current_item = some it → it.state = ItemState.completed →
        s.check_time_state now = (none, s))
    ∧ (∀ it, s.current_item = some it → it.state ≠ ItemState.completed →
        s.pct now it ≥ 1 → it.state ≠ ItemState.overtime → it.state ≠ ItemState.extended →
        s.check_time_state now =
          (some ItemState.overtime, s.set_current { it with state := ItemState.overtime }))
    ∧ (∀ it, s.current_item = some it → it.state = ItemState.active →
        s.pct now it ≥ 4/5 → s.pct now it < 1 →
        s.check_time_state now =
          (some ItemState.warning, s.set_current { it with state := ItemState.warning }))
    ∧ (∀ it, it.duration_minutes ≤ 0 → s.pct now it = 1)
    ∧ ((s.check_time_state now).1 = none → (s.check_time_state now).2 = s)
    ∧ (((s.check_time_state now).2.check_time_state now).1 = none) := by
  refine ⟨?_, ?_, ?_, ?_, ?_, ?_, ?_⟩
  · intro h
    simp [MeetingState.check_time_state, h]
  · intro it h hc
    simp [MeetingState.check_time_state, h, hc]
  · intro it h hc hp ho he
    simp only [MeetingState.check_time_state, h]
    rw [if_neg hc, if_pos ⟨hp, ho, he⟩]
  · intro it h ha hp hlt
    simp only [MeetingState.check_time_state, h]
    rw [if_neg (show ¬(it.state = ItemState.completed) by simp [ha]),
      if_neg (fun hcon => absurd hcon.1 (not_le.mpr hlt)),
      if_pos ⟨hp, ha⟩]
  · intro it hd
    simp [MeetingState.pct, not_lt.mpr hd]
  · rcases hci : s.current_item with _ | it
    · simp [MeetingState.check_time_state, hci]
    · simp only [MeetingState.check_time_state, hci]
      split_ifs <;> simp
  · rcases hci : s.current_item with _ | it
    · simp [MeetingState.check_time_state, hci]
    · by_cases h1 : it.state = ItemState.completed
      · simp [MeetingState.check_time_state, hci, h1]
      · by_cases h2 : s.pct now it ≥ 1 ∧ it.state ≠ ItemState.overtime
            ∧ it.state ≠ ItemState.extended
        · have houter : s.check_time_state now =
              (some ItemState.overtime, s.set_current { it with state := ItemState.overtime }) := by
            simp only [MeetingState.check_time_state, hci]
            rw [if_neg h1, if_pos h2]
          have hci2 := current_item_set_current s it { it with state := ItemState.overtime } hci
          rw [houter]
          show ((s.set_current { it with state := ItemState.overtime }).check_time_state now).1
            = none
          simp only [MeetingState.check_time_state, hci2]
          simp
        · by_cases h3 : s.pct now it ≥ 4/5 ∧ it.state = ItemState.active
          · have houter : s.check_time_state now =
                (some ItemState.warning, s.set_current { it with state := ItemState.warning }) := by
              simp only [MeetingState.check_time_state, hci]
              rw [if_neg h1, if_neg h2, if_pos h3]
            have hci2 := current_item_set_current s it { it with state := ItemState.warning } hci
            have hplt : ¬(s.pct now it ≥ 1) :=
              fun hp => h2 ⟨hp, by simp [h3.2], by simp [h3.2]⟩
            have hpcteq : (s.set_current { it with state := ItemState.warning }).pct now
                { it with state := ItemState.warning } = s.pct now it := rfl
            rw [houter]
            show ((s.set_current { it with state := ItemState.warning }).check_time_state now).1
              = none
            simp only [MeetingState.check_time_state, hci2]
            simp [hpcteq, hplt]
          · have houter : s.check_time_state now = (none, s) := by
              simp only [MeetingState.check_time_state, hci]
              rw [if_neg h1, if_neg h2, if_neg h3]
            rw [houter]
            show (s.check_time_state now).1 = none
            rw [houter]

/-- C2 witness: the 10-minute item at elapsed 8 minutes (timestamp 480s)
transitions ACTIVE to WARNING exactly once; the repeated call at the same
elapsed time reports no transition. -/
theorem check_time_state_spec_witness :
    (oneItemMeeting.check_time_state 480).1 = some ItemState.warning
    ∧ ((oneItemMeeting.check_time_state 480).2.check_time_state 480).1 = none := by
  have h := check_time_state_spec oneItemMeeting 480
  constructor
  · rw [h.2.2.2.1 item1 rfl rfl
      (by norm_num [MeetingState.pct, MeetingState.elapsed_minutes, oneItemMeeting, item1])
      (by norm_num [MeetingState.pct, MeetingState.elapsed_minutes, oneItemMeeting, item1])]
  · exact h.2.2.2.2.2.2

/-- C3 counterexample: called with no current item, `advance_to_next` is
not a state-preserving no-op — it still increments the current item index
(while returning nothing). -/
theorem advance_to_next_not_state_preserving :
    emptyMeeting.current_item = none
    ∧ (emptyMeeting.advance_to_next 0).1 = none
    ∧ (emptyMeeting.advance_to_next 0).2 ≠ emptyMeeting
    ∧ (emptyMeeting.advance_to_next 0).2.current_item_index
        = emptyMeeting.current_item_index + 1 := by
  refine ⟨rfl, rfl, ?_, rfl⟩
  intro hcontra
  have h1 := congrArg MeetingState.current_item_index hcontra
  exact absurd h1 (by decide)

/-- C3 (amended): with a current item, `advance_to_next` records the item's
actual elapsed time, folds the positive overrun into cumulative overtime,
marks it COMPLETED, then activates the next item with a reset start
timestamp and returns it (or returns nothing when the agenda is
exhausted); with no current item it returns nothing and the only change is
the incremented current item index. -/
theorem advance_to_next_spec (s : MeetingState) (now : ℚ) :
    (s.current_item = none →
        s.advance_to_next now
          = (none, { s with current_item_index := s.current_item_index + 1 }))
    ∧ (∀ it, s.current_item = some it →
        (s.advance_to_next now).2.meeting_overtime
            = s.meeting_overtime + max 0 (s.elapsed_minutes now - it.duration_minutes)
        ∧ (s.advance_to_next now).2.items[s.current_item_index]?
            = some { it with actual_elapsed := s.elapsed_minutes now,
                             state := ItemState.completed }
        ∧ (s.advance_to_next now).2.current_item_index = s.current_item_index + 1
        ∧ (∀ nxt, s.items[s.current_item_index + 1]? = some nxt →
            (s.advance_to_next now).1 = some { nxt with state := ItemState.active }
            ∧ (s.advance_to_next now).2.item_start_time = some now
            ∧ (s.advance_to_next now).2.current_item
                = some { nxt with state := ItemState.active })
        ∧ (s.items[s.current_item_index + 1]? = none →
            (s.advance_to_next now).1 = none
            ∧ (s.advance_to_next now).2.item_start_time = s.item_start_time)) := by
  constructor
  · intro h
    have h' : s.items[s.current_item_index]? = none := h
    have hn2 : s.items[s.current_item_index + 1]? = none :=
      List.getElem?_eq_none (le_trans (List.getElem?_eq_none_iff.mp h) (Nat.le_succ _))
    simp [MeetingState.advance_to_next, MeetingState.current_item, h', hn2]
  · intro it h
    have hlt := current_item_index_lt s it h
    have hset1 : (s.items.set s.current_item_index
        { it with actual_elapsed := s.elapsed_minutes now,
                  state := ItemState.completed })[s.current_item_index + 1]?
        = s.items[s.current_item_index + 1]? := List.getElem?_set_ne (by omega)
    have h' : s.items[s.current_item_index]? = some it := h
    simp only [MeetingState.advance_to_next, MeetingState.current_item, h']
    rcases hnext : s.items[s.current_item_index + 1]? with _ | nxt
    · rw [hset1, hnext]
      refine ⟨rfl, List.getElem?_set_self hlt, rfl, ?_, fun _ => ⟨rfl, rfl⟩⟩
      intro nxt hnxt
      exact Option.noConfusion hnxt
    · rw [hset1, hnext]
      have hlt2 : s.current_item_index + 1 < s.items.length :=
        (List.getElem?_eq_some.mp hnext).1
      refine ⟨rfl, ?_, rfl, ?_, ?_⟩
      · rw [List.getElem?_set_ne (by omega), List.getElem?_set_self hlt]
      · intro nxt' hnxt
        injection hnxt with he
        subst he
        refine ⟨rfl, rfl, ?_⟩
        show ((s.items.set s.current_item_index _).set (s.current_item_index + 1)
          { nxt with state := ItemState.active })[s.current_item_index + 1]?
          = some { nxt with state := ItemState.active }
        exact List.getElem?_set_self (by simpa using hlt2)
      · intro hnone
        exact Option.noConfusion hnone

/-- C3 witness: a 10-minute item advanced at elapsed 12 minutes folds a
2-minute overrun into cumulative overtime and activates the next item with
the start timestamp reset to the advance time. -/
theorem advance_to_next_spec_witness :
    (twoItemMeeting.advance_to_next 720).2.meeting_overtime = 2
    ∧ (twoItemMeeting.advance_to_next 720).1 = some { item2 with state := ItemState.active }
    ∧ (twoItemMeeting.advance_to_next 720).2.item_start_time = some 720 := by
  have h := (advance_to_next_spec twoItemMeeting 720).2 item1 rfl
  have hnxt := h.2.2.2.1 item2 rfl
  refine ⟨?_, hnxt.1, hnxt.2.1⟩
  rw [h.1]
  norm_num [twoItemMeeting, item1, MeetingState.elapsed_minutes]

/-- C9 counterexample: in the aggressive style, outside any grace window,
20 seconds after the last intervention (more than the claimed 10-second
tolerance), `can_intervene_for_tangent` still returns false: the
tolerance dictionary has no "aggressive" entry and falls back to the
30-second intervention cooldown. -/
theorem can_intervene_for_tangent_aggressive_counterexample :
    aggressiveMeeting.style = "aggressive"
    ∧ aggressiveMeeting.is_in_override_grace 20 = false
    ∧ (20 : ℚ) - aggressiveMeeting.last_intervention_time > 10
    ∧ aggressiveMeeting.can_intervene_for_tangent 20 = false := by
  refine ⟨rfl, rfl, by norm_num [aggressiveMeeting], ?_⟩
  have hred : aggressiveMeeting.can_intervene_for_tangent 20
      = decide ((20 : ℚ) - aggressiveMeeting.last_intervention_time
          > tangent_tolerance_get "aggressive") := rfl
  have htol : tangent_tolerance_get "aggressive" = 30 := rfl
  rw [hred, decide_eq_false_iff_not, htol]
  norm_num [aggressiveMeeting]

/-- C9 (amended): `can_intervene_for_tangent` returns false for the
"chatting" style and during an active override grace window; otherwise it
returns true exactly when the time since the last intervention exceeds the
per-style tolerance — 60s gentle, 30s moderate, and for every other style
(including aggressive) the default 30-second intervention cooldown. -/
theorem can_intervene_for_tangent_spec (s : MeetingState) (now : ℚ) :
    (s.style = "chatting" → s.can_intervene_for_tangent now = false)
    ∧ (s.is_in_override_grace now = true → s.can_intervene_for_tangent now = false)
    ∧ (s.style ≠ "chatting" → s.is_in_override_grace now = false →
        (s.can_intervene_for_tangent now = true
          ↔ now - s.last_intervention_time > tangent_tolerance_get s.style))
    ∧ tangent_tolerance_get "gentle" = 60
    ∧ tangent_tolerance_get "moderate" = 30
    ∧ tangent_tolerance_get "aggressive" = INTERVENTION_COOLDOWN := by
  refine ⟨?_, ?_, ?_, by simp [tangent_tolerance_get], by simp [tangent_tolerance_get],
    by simp [tangent_tolerance_get]⟩
  · intro h
    simp [MeetingState.can_intervene_for_tangent, h]
  · intro h
    unfold MeetingState.can_intervene_for_tangent
    by_cases hc : s.style = "chatting"
    · rw [if_pos hc]
    · rw [if_neg hc, if_pos h]
  · intro hc hg
    unfold MeetingState.can_intervene_for_tangent
    rw [if_neg hc, if_neg (fun hcon => Bool.false_ne_true (hg ▸ hcon))]
    exact decide_eq_true_iff

/-- C9 witness: in the gentle style (60-second tolerance) the bot may
intervene 61 seconds after the last intervention but not 59 seconds
after it. -/
theorem can_intervene_for_tangent_spec_witness :
    gentleMeeting.can_intervene_for_tangent 61 = true
    ∧ gentleMeeting.can_intervene_for_tangent 59 = false := by
  have h61 := (can_intervene_for_tangent_spec gentleMeeting 61).2.2.1 (by decide) rfl
  have h59 := (can_intervene_for_tangent_spec gentleMeeting 59).2.2.1 (by decide) rfl
  constructor
  · exact h61.mpr (by norm_num [gentleMeeting, tangent_tolerance_get])
  · cases hb : gentleMeeting.can_intervene_for_tangent 59
    · rfl
    · exact absurd (h59.mp hb) (by norm_num [gentleMeeting, tangent_tolerance_get])

/-- C4 counterexample: two calls of `evaluate` with the same candidate
text, the same trigger and the same context return different results when
the wall clock has crossed the context's silence-expiry timestamp, so the
result is not a function of the three arguments alone. -/
theorem evaluate_depends_on_wall_clock :
    (evaluate "hello" Trigger.TIME_WARNING { baseCtx with silence_until := 100 } 50).action
        = "silent"
    ∧ (evaluate "hello" Trigger.TIME_WARNING { baseCtx with silence_until := 100 } 150).action
        = "speak" :=
  ⟨rfl, rfl⟩

/-- C4 (amended): `evaluate` is a pure deterministic function of its three
arguments together with the current wall-clock time, and the clock enters
only through the silence-window test: two calls that agree on whether the
silence window is active return equal results (and, by construction of the
embedding, no call mutates the context or any other state). -/
theorem evaluate_deterministic_given_silence_activity
    (text trigger : String) (ctx : MeetingContext) (now1 now2 : ℚ)
    (h : (ctx.silence_until > 0 ∧ now1 < ctx.silence_until)
        ↔ (ctx.silence_until > 0 ∧ now2 < ctx.silence_until)) :
    evaluate text trigger ctx now1 = evaluate text trigger ctx now2 := by
  have hf : silence_active_flag ctx now1 = silence_active_flag ctx now2 := by
    unfold silence_active_flag
    exact decide_eq_decide.mpr h
  simp only [evaluate, hf]

/-- C4 amended-claim witness: with the silence window inactive at both
timestamps 150 and 200, the two evaluations coincide. -/
theorem evaluate_deterministic_given_silence_activity_witness :
    evaluate "hello" Trigger.TIME_WARNING { baseCtx with silence_until := 100 } 150
      = evaluate "hello" Trigger.TIME_WARNING { baseCtx with silence_until := 100 } 200 :=
  evaluate_deterministic_given_silence_activity "hello" Trigger.TIME_WARNING
    { baseCtx with silence_until := 100 } 150 200 (by decide)
